import Mathlib

/-!
# Verification of the KukaButtonGymEnv step/reward/termination state machine

Shallow embedding of `src/environments/kuka_button_gym_env.py`.

The physics engine (pybullet) is an external collaborator: at each reward
evaluation the environment queries it for three facts — whether the gripper
touches the button link, whether the arm touches the table, and the gripper
position (from which a scalar distance to the target is computed).  We model
that per-tick query result as a `Tick` record and the distance as the exact
rational value the environment compares against `MAX_DISTANCE`.

All counters and flags of the episode (`terminated`, `n_contacts`,
`n_steps_outside`, `_env_step_counter`) are modelled exactly as the Python
mutates them, with module-level configuration constants (`SHAPE_REWARD`,
`IS_DISCRETE`) carried in a `Config` record because the claims exercise both
settings.
-/

namespace KukaEnv

/-! ## Module-level constants (lines 18-41 of the source) -/

def MAX_STEPS : Nat := 500

def N_CONTACTS_BEFORE_TERMINATION : Nat := 5

def N_STEPS_OUTSIDE_SAFETY_SPHERE : Nat := 5000

/-- `MAX_DISTANCE = 0.4`: max distance between end effector and the button. -/
def MAX_DISTANCE : ℚ := mkRat 4 10

def N_DISCRETE_ACTIONS : Nat := 6

/-- `DELTA_V = 0.03`: velocity per physics step. -/
def DELTA_V : ℚ := mkRat 3 100

/-- `DELTA_V_CONTINUOUS = 0.0035`: velocity per physics step, continuous. -/
def DELTA_V_CONTINUOUS : ℚ := mkRat 35 10000

def ACTION_REPEAT : Nat := 1

/-- `BUTTON_DISTANCE_HEIGHT = 0.28`: extra height added to the button
position in the distance calculation. -/
def BUTTON_DISTANCE_HEIGHT : ℚ := mkRat 28 100

/-! ## Data model -/

/-- 3-d position vector (exact rational coordinates). -/
structure Vec3 where
  x : ℚ
  y : ℚ
  z : ℚ
deriving DecidableEq, Repr

/-- Squared Euclidean norm of a vector. -/
def normSq (v : Vec3) : ℚ := v.x ^ 2 + v.y ^ 2 + v.z ^ 2

/-- Componentwise difference `a - b` (as in `button_pos - gripper_pos`). -/
def vsub (a b : Vec3) : Vec3 := ⟨a.x - b.x, a.y - b.y, a.z - b.z⟩

/-- Module-level configuration flags read by `_reward`. -/
structure Config where
  SHAPE_REWARD : Bool
  IS_DISCRETE : Bool
deriving DecidableEq, Repr

/-- The mutable episode fields of `KukaButtonGymEnv` that the
step/reward/termination state machine reads and writes. -/
structure EnvState where
  terminated : Bool
  n_contacts : Nat
  n_steps_outside : Nat
  env_step_counter : Nat
deriving DecidableEq, Repr

/-- The result of the physics queries made by one `_reward` evaluation:
`getContactPoints(button, kuka, BUTTON_LINK_IDX)` nonempty,
`getContactPoints(table, kuka)` nonempty, and
`np.linalg.norm(button_pos - gripper_pos, 2)`. -/
structure Tick where
  buttonContact : Bool
  tableContact : Bool
  distance : ℚ
deriving DecidableEq, Repr

/-- The decoded low-level command `[dx, dy, dz, da, finger_angle]` handed to
`Kuka.applyAction`. -/
structure Command where
  dx : ℚ
  dy : ℚ
  dz : ℚ
  da : ℚ
  finger_angle : ℚ
deriving DecidableEq, Repr

/-! ## reset (lines 182-254) — the episode fields it re-initialises -/

/-- `reset()` sets `terminated = False`, `n_contacts = 0`,
`n_steps_outside = 0` (lines 187-189) and `_env_step_counter = 0`
(line 211). -/
def resetState : EnvState :=
  { terminated := false, n_contacts := 0, n_steps_outside := 0, env_step_counter := 0 }

/-- Lines 244-245: the target position is the button link position with
`BUTTON_DISTANCE_HEIGHT` added to its `z` coordinate. -/
def resetButtonPos (linkPos : Vec3) : Vec3 :=
  ⟨linkPos.x, linkPos.y, linkPos.z + BUTTON_DISTANCE_HEIGHT⟩

/-! ## _termination (lines 407-411) -/

/-- `_termination`: true iff `self.terminated or self._env_step_counter > MAX_STEPS`. -/
def termination (s : EnvState) : Bool :=
  s.terminated || decide (s.env_step_counter > MAX_STEPS)

/-! ## _reward (lines 413-448) -/

/-- `_reward`: one reward evaluation.  Returns the reward and the updated
episode state.  Mirrors the source line by line:
contact reward, `n_contacts` increment, table-contact query, the
distance/table override to `-1` together with the `n_steps_outside`
update, the termination check, and the shaped/raw return. -/
def rewardUpd (cfg : Config) (s : EnvState) (t : Tick) : ℚ × EnvState :=
  let contactReward : Int := if t.buttonContact then 1 else 0
  let n_contacts : Nat := s.n_contacts + contactReward.toNat
  let contact_with_table : Bool := t.tableContact
  let outside : Bool := decide (t.distance > MAX_DISTANCE) || contact_with_table
  let reward : Int := if outside then -1 else contactReward
  let n_steps_outside : Nat := if outside then s.n_steps_outside + 1 else 0
  let terminated : Bool := s.terminated || contact_with_table
      || decide (n_contacts ≥ N_CONTACTS_BEFORE_TERMINATION - 1)
      || decide (n_steps_outside ≥ N_STEPS_OUTSIDE_SAFETY_SPHERE - 1)
  let s2 : EnvState :=
    { terminated := terminated, n_contacts := n_contacts,
      n_steps_outside := n_steps_outside, env_step_counter := s.env_step_counter }
  let r : ℚ :=
    if cfg.SHAPE_REWARD then
      if cfg.IS_DISCRETE then -t.distance
      else if terminated && decide (reward > 0) then 50
      else if terminated && decide (reward < 0) then -250
      else -t.distance
    else (reward : ℚ)
  (r, s2)

/-! ## step2 (lines 322-348) -/

/-- The `for i in range(self._action_repeat)` loop of `step2`: each
iteration applies the action and advances the simulation, then breaks if
`_termination()` holds, else increments `_env_step_counter`. -/
def stepLoop : Nat → EnvState → EnvState
  | 0, s => s
  | n + 1, s =>
    if termination s then s
    else stepLoop n { s with env_step_counter := s.env_step_counter + 1 }

/-- What one `step2` call returns: the reward, the `done` flag, and the
episode state afterwards. -/
structure StepResult where
  reward : ℚ
  done : Bool
  state : EnvState
deriving DecidableEq, Repr

/-- `step2`: run the action-repeat loop, then compute `done = _termination()`
and `reward = _reward()` — in that order, so `done` reflects the state
before this tick's reward evaluation. -/
def step2 (cfg : Config) (s : EnvState) (t : Tick) : StepResult :=
  let s1 := stepLoop ACTION_REPEAT s
  let done := termination s1
  let rs := rewardUpd cfg s1 t
  { reward := rs.1, done := done, state := rs.2 }

/-- Iterated `step2` state over a list of ticks (one tick per call). -/
def runSteps (cfg : Config) (s : EnvState) : List Tick → EnvState
  | [] => s
  | t :: ts => runSteps cfg (step2 cfg s t).state ts

/-! ## step (lines 275-320) — action decoding -/

/-- Python index normalization: a negative index counts from the end. -/
def pyWrap (len : Nat) (i : Int) : Int :=
  if 0 ≤ i then i else (len : Int) + i

/-- Python list indexing `l[i]`: valid for `-len(l) ≤ i < len(l)` with
negative indices counting from the end; otherwise an `IndexError`. -/
def pyIndex (l : List ℚ) (i : Int) : Except String ℚ :=
  if h : 0 ≤ pyWrap l.length i ∧ pyWrap l.length i < (l.length : Int) then
    Except.ok (l.get ⟨(pyWrap l.length i).toNat, by omega⟩)
  else
    Except.error "IndexError"

/-- Line 291: `dx = [-dv, dv, 0, 0, 0, 0][action]`. -/
def dxTable (dv : ℚ) : List ℚ := [-dv, dv, 0, 0, 0, 0]

/-- Line 292: `dy = [0, 0, -dv, dv, 0, 0][action]`. -/
def dyTable (dv : ℚ) : List ℚ := [0, 0, -dv, dv, 0, 0]

/-- Line 293: `dz = [0, 0, 0, 0, -dv, dv][action]` — the source comments
this line `# Remove up action`. -/
def dzTable (dv : ℚ) : List ℚ := [0, 0, 0, 0, -dv, dv]

/-- Discrete decoding (lines 287-297): `dv = DELTA_V + noise`, three table
lookups, `finger_angle = 0`, command `[dx, dy, dz, 0, finger_angle]`.
The noise draw is a parameter (its nominal value is 0). -/
def discreteCommand (action : Int) (noise : ℚ) : Except String Command :=
  let dv := DELTA_V + noise
  match pyIndex (dxTable dv) action, pyIndex (dyTable dv) action,
        pyIndex (dzTable dv) action with
  | Except.ok dx, Except.ok dy, Except.ok dz => Except.ok ⟨dx, dy, dz, 0, 0⟩
  | Except.error e, _, _ => Except.error e
  | _, Except.error e, _ => Except.error e
  | _, _, Except.error e => Except.error e

/-- Continuous task-space decoding (lines 307-315):
`dv = DELTA_V_CONTINUOUS + noise`, `dx = action[0]*dv`, `dy = action[1]*dv`,
`dz = action[2]*dv`, command `[dx, dy, dz, 0, 0]`.  Entries of `action`
beyond index 2 are never read. -/
def continuousCommand (action : List ℚ) (noise : ℚ) : Except String Command :=
  let dv := DELTA_V_CONTINUOUS + noise
  match pyIndex action 0, pyIndex action 1, pyIndex action 2 with
  | Except.ok a0, Except.ok a1, Except.ok a2 =>
      Except.ok ⟨a0 * dv, a1 * dv, a2 * dv, 0, 0⟩
  | Except.error e, _, _ => Except.error e
  | _, Except.error e, _ => Except.error e
  | _, _, Except.error e => Except.error e

/-! ## reset exploratory actions (lines 233-237), continuous task-space -/

/-- Line 236: `rand_direction /= np.linalg.norm(rand_direction, 2)` — the
division is unconditional; `n` stands for the computed L2 norm of `v`
(characterised in theorems by `0 ≤ n` and `n ^ 2 = normSq v`). -/
def l2normalize (v : Vec3) (n : ℚ) : Vec3 := ⟨v.x / n, v.y / n, v.z / n⟩

/-- Lines 233-237: `action = np.zeros(5); action[:3] += DELTA_V_CONTINUOUS *
rand_direction` after the normalization — the exploratory command applied
during `reset()`. -/
def exploratoryCommand (v : Vec3) (n : ℚ) : Command :=
  let d := l2normalize v n
  ⟨DELTA_V_CONTINUOUS * d.x, DELTA_V_CONTINUOUS * d.y, DELTA_V_CONTINUOUS * d.z, 0, 0⟩

/-- The divisor of the normalization at line 236 is zero exactly when the
drawn vector has zero squared norm. -/
def normalizationDividesByZero (v : Vec3) : Bool := decide (normSq v = 0)

/-! ## Scenario fixtures -/

/-- A tick with no button contact, no table contact, gripper at the target. -/
def noContactTick : Tick := ⟨false, false, 0⟩

/-- Discrete mode with shaping disabled (the source's default constants). -/
def defaultCfg : Config := ⟨false, true⟩

/-- Episode state after `n` `step2` calls from `resetState`, each tick
reporting no contact and in-range distance. -/
def scenarioIter : Nat → EnvState
  | 0 => resetState
  | n + 1 => (step2 defaultCfg (scenarioIter n) noContactTick).state

/-- A tick where the gripper touches the button, no table contact, and the
gripper is within `MAX_DISTANCE` of the target. -/
def contactTick : Tick := ⟨true, false, 0⟩

/-- Episode state after `n` consecutive reward evaluations from
`resetState`, each with a successful (non-penalized) button contact. -/
def contactIter : Nat → EnvState
  | 0 => resetState
  | n + 1 => (rewardUpd defaultCfg (contactIter n) contactTick).2

/-! ## Helper lemmas -/

theorem rewardUpd_counter (cfg : Config) (s : EnvState) (t : Tick) :
    (rewardUpd cfg s t).2.env_step_counter = s.env_step_counter := rfl

theorem rewardUpd_terminated_mono (cfg : Config) (s : EnvState) (t : Tick)
    (h : s.terminated = true) : (rewardUpd cfg s t).2.terminated = true := by
  simp [rewardUpd, h]

theorem stepLoop_of_term (n : Nat) (s : EnvState) (h : termination s = true) :
    stepLoop n s = s := by
  cases n with
  | zero => rfl
  | succ k => simp [stepLoop, h]

theorem stepLoop_counter_ge (n : Nat) (s : EnvState) :
    s.env_step_counter ≤ (stepLoop n s).env_step_counter := by
  induction n generalizing s with
  | zero => exact Nat.le_refl _
  | succ k ih =>
    by_cases h : termination s = true
    · simp [stepLoop, h]
    · simp only [stepLoop, h, Bool.false_eq_true, if_false]
      exact Nat.le_trans (Nat.le_succ _)
        (ih { s with env_step_counter := s.env_step_counter + 1 })

theorem stepLoop_run (s : EnvState) (h : termination s = false) :
    stepLoop 1 s = { s with env_step_counter := s.env_step_counter + 1 } := by
  simp [stepLoop, h]

theorem termination_rewardUpd_of_term (cfg : Config) (s : EnvState) (t : Tick)
    (h : termination s = true) : termination (rewardUpd cfg s t).2 = true := by
  rcases Bool.or_eq_true_iff.mp h with h1 | h1
  · simp [termination, rewardUpd_terminated_mono cfg s t h1]
  · simp [termination, rewardUpd_counter, h1]

theorem step2_done_of_term (cfg : Config) (s : EnvState) (t : Tick)
    (h : termination s = true) : (step2 cfg s t).done = true := by
  simp [step2, ACTION_REPEAT, stepLoop_of_term 1 s h, h]

theorem step2_term_of_term (cfg : Config) (s : EnvState) (t : Tick)
    (h : termination s = true) : termination (step2 cfg s t).state = true := by
  simp [step2, ACTION_REPEAT, stepLoop_of_term 1 s h,
    termination_rewardUpd_of_term cfg s t h]

theorem step2_done_term (cfg : Config) (s : EnvState) (t : Tick)
    (h : (step2 cfg s t).done = true) : termination (step2 cfg s t).state = true := by
  have : termination (stepLoop ACTION_REPEAT s) = true := h
  simpa [step2] using termination_rewardUpd_of_term cfg (stepLoop ACTION_REPEAT s) t this

theorem runSteps_term (cfg : Config) (s : EnvState) (ts : List Tick)
    (h : termination s = true) : termination (runSteps cfg s ts) = true := by
  induction ts generalizing s with
  | nil => exact h
  | cons t ts ih => exact ih _ (step2_term_of_term cfg s t h)


theorem pyWrap_cond (len : Nat) (i : Int) :
    (0 ≤ pyWrap len i ∧ pyWrap len i < (len : Int)) ↔ (-(len : Int) ≤ i ∧ i < (len : Int)) := by
  unfold pyWrap
  split <;> omega

theorem pyIndex_isOk (l : List ℚ) (i : Int)
    (h : -(l.length : Int) ≤ i ∧ i < (l.length : Int)) :
    ∃ q, pyIndex l i = Except.ok q := by
  unfold pyIndex
  rw [dif_pos ((pyWrap_cond l.length i).mpr h)]
  exact ⟨_, rfl⟩

theorem pyIndex_eq_error (l : List ℚ) (i : Int)
    (h : ¬ (-(l.length : Int) ≤ i ∧ i < (l.length : Int))) :
    pyIndex l i = Except.error "IndexError" := by
  unfold pyIndex
  rw [dif_neg]
  intro hc
  exact h ((pyWrap_cond l.length i).mp hc)

theorem pyIndex_zero (a : ℚ) (l : List ℚ) : pyIndex (a :: l) 0 = Except.ok a := by
  unfold pyIndex
  rw [dif_pos (by constructor <;> simp [pyWrap] <;> omega)]
  rfl

theorem pyIndex_one (a b : ℚ) (l : List ℚ) : pyIndex (a :: b :: l) 1 = Except.ok b := by
  unfold pyIndex
  rw [dif_pos (by constructor <;> simp [pyWrap] <;> omega)]
  rfl

theorem pyIndex_two (a b c : ℚ) (l : List ℚ) : pyIndex (a :: b :: c :: l) 2 = Except.ok c := by
  unfold pyIndex
  rw [dif_pos (by constructor <;> simp [pyWrap] <;> omega)]
  rfl

theorem scenarioIter_eq : ∀ n, n ≤ 500 → scenarioIter n = ⟨false, 0, 0, n⟩ := by
  intro n
  induction n with
  | zero => intro _; rfl
  | succ k ih =>
    intro h
    have hk := ih (by omega)
    have hterm : termination (⟨false, 0, 0, k⟩ : EnvState) = false := by
      simp [termination, MAX_STEPS]
      omega
    show (step2 defaultCfg (scenarioIter k) noContactTick).state = _
    rw [hk]
    simp [step2, ACTION_REPEAT, stepLoop, hterm, rewardUpd, noContactTick, defaultCfg,
      MAX_DISTANCE, N_CONTACTS_BEFORE_TERMINATION, N_STEPS_OUTSIDE_SAFETY_SPHERE]
    all_goals decide


/-- C1: on a reward evaluation with gripper-button contact (no table
contact, in-range distance) from a running episode, the `terminated` flag is
set exactly when the cumulative contact count reaches
`N_CONTACTS_BEFORE_TERMINATION - 1`; concretely, starting from `reset()`,
termination fires on the 4th, not the 5th, successful contact evaluation. -/
theorem contact_termination_boundary (cfg : Config) (s : EnvState) (t : Tick)
    (hb : t.buttonContact = true) (ht : t.tableContact = false)
    (hd : t.distance ≤ MAX_DISTANCE) (hrun : s.terminated = false) :
    ((rewardUpd cfg s t).2.terminated = true ↔
      N_CONTACTS_BEFORE_TERMINATION - 1 ≤ s.n_contacts + 1)
    ∧ (contactIter 3).terminated = false
    ∧ (contactIter 4).terminated = true := by
  have hd2 : ¬ (t.distance > MAX_DISTANCE) := not_lt.mpr hd
  refine ⟨?_, by decide, by decide⟩
  simp [rewardUpd, hb, ht, hd2, hrun, N_CONTACTS_BEFORE_TERMINATION,
    N_STEPS_OUTSIDE_SAFETY_SPHERE]

/-- Witness for C1: a running episode with 3 prior contacts terminates on
its 4th successful contact evaluation. -/
theorem contact_termination_boundary_witness :
    (rewardUpd defaultCfg ⟨false, 3, 17, 42⟩ contactTick).2.terminated = true := by
  have h := contact_termination_boundary defaultCfg ⟨false, 3, 17, 42⟩ contactTick
    rfl rfl (by decide) rfl
  exact h.1.mpr (by norm_num [N_CONTACTS_BEFORE_TERMINATION])

/-- C4: with reward shaping disabled every `step()` reward is in
{-1, 0, 1}: -1 whenever distance exceeds `MAX_DISTANCE` or the arm contacts
the table (overriding the contact signal), else 1 on gripper-button
contact, else 0. -/
theorem raw_reward_values (cfg : Config) (s : EnvState) (t : Tick)
    (hshape : cfg.SHAPE_REWARD = false) :
    (rewardUpd cfg s t).1 =
      (if t.distance > MAX_DISTANCE ∨ t.tableContact = true then -1
        else if t.buttonContact = true then 1 else 0)
    ∧ ((rewardUpd cfg s t).1 = -1 ∨ (rewardUpd cfg s t).1 = 0 ∨ (rewardUpd cfg s t).1 = 1) := by
  have key : (rewardUpd cfg s t).1 =
      (if t.distance > MAX_DISTANCE ∨ t.tableContact = true then -1
        else if t.buttonContact = true then 1 else 0) := by
    by_cases h1 : t.distance > MAX_DISTANCE <;>
      by_cases h2 : t.tableContact = true <;>
        by_cases h3 : t.buttonContact = true <;>
          simp [rewardUpd, hshape, h1, h2, h3]
  refine ⟨key, ?_⟩
  rw [key]
  by_cases h1 : t.distance > MAX_DISTANCE ∨ t.tableContact = true <;>
    by_cases h3 : t.buttonContact = true <;> simp [h1, h3]

/-- Witness for C4 at a successful-contact tick. -/
theorem raw_reward_values_witness :
    (rewardUpd defaultCfg resetState contactTick).1 =
      (if contactTick.distance > MAX_DISTANCE ∨ contactTick.tableContact = true then -1
        else if contactTick.buttonContact = true then 1 else 0) := by
  exact (raw_reward_values defaultCfg resetState contactTick rfl).1

/-- C10: on every reward evaluation `n_contacts` increases by exactly 1
if the gripper touches the button and by 0 otherwise — also on ticks whose
returned reward is overridden to -1 — and such penalized contacts still
count toward the contact-termination threshold. -/
theorem contact_counter_unconditional (cfg : Config) (s : EnvState) (t : Tick) :
    (rewardUpd cfg s t).2.n_contacts =
      s.n_contacts + (if t.buttonContact = true then 1 else 0)
    ∧ (t.buttonContact = true → N_CONTACTS_BEFORE_TERMINATION - 1 ≤ s.n_contacts + 1 →
        (rewardUpd cfg s t).2.terminated = true) := by
  constructor
  · by_cases h3 : t.buttonContact = true <;> simp [rewardUpd, h3]
  · intro hb hth
    simp [rewardUpd, hb, N_CONTACTS_BEFORE_TERMINATION] at hth ⊢
    omega

/-- Witness for C10: an out-of-range contact tick still increments the
counter to 4 and terminates the episode. -/
theorem contact_counter_unconditional_witness :
    (rewardUpd defaultCfg ⟨false, 3, 0, 7⟩ ⟨true, false, 1⟩).2.n_contacts = 3 + 1
    ∧ (rewardUpd defaultCfg ⟨false, 3, 0, 7⟩ ⟨true, false, 1⟩).2.terminated = true := by
  refine ⟨?_, ?_⟩
  · have h := (contact_counter_unconditional defaultCfg ⟨false, 3, 0, 7⟩ ⟨true, false, 1⟩).1
    simpa using h
  · exact (contact_counter_unconditional defaultCfg ⟨false, 3, 0, 7⟩ ⟨true, false, 1⟩).2
      rfl (by norm_num [N_CONTACTS_BEFORE_TERMINATION])


/-- C2: termination is monotone — once `step()` returns `done = True`,
every subsequent `step()` call (any tick sequence, any configuration)
returns `done = True` until `reset()`; the `terminated` flag never goes
from true back to false mid-episode; and `reset()` yields a fresh RUNNING
episode with `terminated = false` and all counters zeroed. -/
theorem done_monotone (cfg cfg2 : Config) (s : EnvState) (t t2 : Tick) (ts : List Tick)
    (h : (step2 cfg s t).done = true) :
    (step2 cfg2 (runSteps cfg2 (step2 cfg s t).state ts) t2).done = true
    ∧ (∀ cfg3 s3 t3, s3.terminated = true → (step2 cfg3 s3 t3).state.terminated = true)
    ∧ resetState.terminated = false ∧ resetState.n_contacts = 0
    ∧ resetState.n_steps_outside = 0 ∧ resetState.env_step_counter = 0
    ∧ termination resetState = false := by
  refine ⟨?_, ?_, rfl, rfl, rfl, rfl, rfl⟩
  · have h1 : termination (step2 cfg s t).state = true := step2_done_term cfg s t h
    have h2 : termination (runSteps cfg2 (step2 cfg s t).state ts) = true :=
      runSteps_term cfg2 _ ts h1
    exact step2_done_of_term cfg2 _ t2 h2
  · intro cfg3 s3 t3 h3
    have hs1 : (stepLoop ACTION_REPEAT s3).terminated = true := by
      by_cases hterm : termination s3 = true
      · rw [stepLoop_of_term _ _ hterm]; exact h3
      · rw [show ACTION_REPEAT = 1 from rfl,
          stepLoop_run s3 (Bool.not_eq_true _ ▸ hterm)]
        exact h3
    exact rewardUpd_terminated_mono cfg3 _ t3 hs1

/-- Witness for C2: from a terminated state, `done` stays true two calls
later. -/
theorem done_monotone_witness :
    (step2 defaultCfg
      (runSteps defaultCfg (step2 defaultCfg ⟨true, 0, 0, 0⟩ noContactTick).state
        [noContactTick]) noContactTick).done = true := by
  exact (done_monotone defaultCfg defaultCfg ⟨true, 0, 0, 0⟩ noContactTick noContactTick
    [noContactTick] (by decide)).1

/-- C3: while the episode is RUNNING each `step()` call increases
`_env_step_counter` by exactly `ACTION_REPEAT`; the counter never decreases
across `step()` and is 0 after `reset()`; and in the `MAX_STEPS = 500`
scenario (no contact, no table touch) the 501st call after `reset()`
returns `done = True`. -/
theorem step_counter_step (cfg : Config) (s : EnvState) (t : Tick)
    (h : termination s = false) :
    (step2 cfg s t).state.env_step_counter = s.env_step_counter + ACTION_REPEAT
    ∧ (∀ cfg2 s2 t2, s2.env_step_counter ≤ (step2 cfg2 s2 t2).state.env_step_counter)
    ∧ resetState.env_step_counter = 0
    ∧ (step2 defaultCfg (scenarioIter 500) noContactTick).done = true := by
  refine ⟨?_, ?_, rfl, ?_⟩
  · show (rewardUpd cfg (stepLoop ACTION_REPEAT s) t).2.env_step_counter = _
    rw [rewardUpd_counter, show ACTION_REPEAT = 1 from rfl, stepLoop_run s h]
  · intro cfg2 s2 t2
    show s2.env_step_counter ≤ (rewardUpd cfg2 (stepLoop ACTION_REPEAT s2) t2).2.env_step_counter
    rw [rewardUpd_counter]
    exact stepLoop_counter_ge ACTION_REPEAT s2
  · rw [scenarioIter_eq 500 (by omega)]
    decide

/-- Witness for C3: the first `step()` after `reset()` moves the counter
from 0 to `ACTION_REPEAT`. -/
theorem step_counter_step_witness :
    (step2 defaultCfg resetState noContactTick).state.env_step_counter = 0 + ACTION_REPEAT := by
  exact (step_counter_step defaultCfg resetState noContactTick (by decide)).1


/-- Counterexample for C5: on a tick with table contact but in-range
distance the out-of-bounds counter is incremented (2 becomes 3), not reset
to 0, although the distance condition is not violated. -/
theorem outside_counter_not_reset_on_table_contact :
    ¬ ((⟨false, true, 0⟩ : Tick).distance > MAX_DISTANCE)
    ∧ (rewardUpd ⟨false, true⟩ ⟨false, 0, 2, 0⟩ ⟨false, true, 0⟩).2.n_steps_outside = 3 := by
  decide

/-- C5 (amended): the episode terminates on table contact in the same
reward evaluation, and when the out-of-bounds counter reaches
`N_STEPS_OUTSIDE_SAFETY_SPHERE - 1`; the counter increments on every
evaluation where distance exceeds `MAX_DISTANCE` or the arm contacts the
table, and resets to 0 exactly when neither violation holds (not merely
when the distance condition holds, as the original claim stated). -/
theorem safety_termination (cfg : Config) (s : EnvState) (t : Tick) :
    (rewardUpd cfg s t).2.n_steps_outside =
      (if t.distance > MAX_DISTANCE ∨ t.tableContact = true then s.n_steps_outside + 1 else 0)
    ∧ (t.tableContact = true → (rewardUpd cfg s t).2.terminated = true)
    ∧ (N_STEPS_OUTSIDE_SAFETY_SPHERE - 1 ≤ (rewardUpd cfg s t).2.n_steps_outside →
        (rewardUpd cfg s t).2.terminated = true) := by
  refine ⟨?_, ?_, ?_⟩
  · by_cases h1 : t.distance > MAX_DISTANCE <;>
      by_cases h2 : t.tableContact = true <;> simp [rewardUpd, h1, h2]
  · intro h2
    simp [rewardUpd, h2]
  · intro hth
    by_cases h1 : t.distance > MAX_DISTANCE <;> by_cases h2 : t.tableContact = true <;>
      simp [rewardUpd, h1, h2] at hth ⊢ <;> omega

/-- Witness for C5: a 4999th consecutive out-of-range evaluation
terminates the episode. -/
theorem safety_termination_witness :
    (rewardUpd defaultCfg ⟨false, 0, 4998, 0⟩ ⟨false, false, 1⟩).2.terminated = true := by
  refine (safety_termination defaultCfg ⟨false, 0, 4998, 0⟩ ⟨false, false, 1⟩).2.2 ?_
  rw [(safety_termination defaultCfg ⟨false, 0, 4998, 0⟩ ⟨false, false, 1⟩).1]
  decide

/-- C6: with shaping enabled, discrete mode always returns the negative
Euclidean distance between the end effector and the target (the button
link position offset vertically by `BUTTON_DISTANCE_HEIGHT`, per
`reset()`); continuous mode returns exactly 50 on a terminal successful
contact, exactly -250 on a terminal safety violation, and the negative
distance otherwise. -/
theorem shaped_reward_spec (cfg : Config) (s : EnvState) (t : Tick)
    (gripperPos linkPos : Vec3)
    (hshape : cfg.SHAPE_REWARD = true)
    (h0 : 0 ≤ t.distance)
    (hdist : t.distance ^ 2 = normSq (vsub (resetButtonPos linkPos) gripperPos)) :
    (cfg.IS_DISCRETE = true → (rewardUpd cfg s t).1 = -t.distance)
    ∧ (cfg.IS_DISCRETE = false → (rewardUpd cfg s t).1 =
        (if (rewardUpd cfg s t).2.terminated = true ∧ t.buttonContact = true
            ∧ ¬ (t.distance > MAX_DISTANCE ∨ t.tableContact = true) then 50
         else if (rewardUpd cfg s t).2.terminated = true
            ∧ (t.distance > MAX_DISTANCE ∨ t.tableContact = true) then -250
         else -t.distance)) := by
  constructor
  · intro hdisc
    simp [rewardUpd, hshape, hdisc]
  · intro hdisc
    by_cases h1 : t.distance > MAX_DISTANCE <;>
      by_cases h2 : t.tableContact = true <;>
        by_cases h3 : t.buttonContact = true <;>
          simp [rewardUpd, hshape, hdisc, h1, h2, h3] <;>
            split <;> simp_all

/-- Witness for C6: shaped discrete reward at Euclidean distance 3 from
the offset target is -3. -/
theorem shaped_reward_spec_witness :
    (rewardUpd ⟨true, true⟩ resetState ⟨false, false, 3⟩).1 = -(3:ℚ) := by
  have hb : BUTTON_DISTANCE_HEIGHT = 28 / 100 := by
    norm_num [BUTTON_DISTANCE_HEIGHT, mkRat, Rat.normalize]
  have h := shaped_reward_spec ⟨true, true⟩ resetState ⟨false, false, 3⟩
    ⟨0, 0, 0⟩ ⟨0, 3, -(28/100)⟩ rfl (by norm_num)
    (by norm_num [normSq, vsub, resetButtonPos, hb])
  exact h.1 rfl


/-- C7 (code evaluated at the failing input): discrete action index 5
decodes to the command `[0, 0, +DELTA_V, 0, 0]` — a positive (upward) `dz`
of magnitude `DELTA_V` — contradicting the claim (and the source's own
`# Remove up action` comment) that no discrete action moves up. -/
theorem discrete_action_five_moves_up :
    discreteCommand 5 0 = Except.ok ⟨0, 0, DELTA_V, 0, 0⟩ ∧ 0 < DELTA_V := by
  constructor
  · have h : discreteCommand 5 0 = Except.ok ⟨0, 0, DELTA_V + 0, 0, 0⟩ := rfl
    rw [h, add_zero]
  · decide

/-- Counterexample for C8: invalid actions are not rejected with
`InvalidActionError` — the out-of-range discrete index -1 is silently
accepted (Python negative indexing, decoding to an up move), a length-4
continuous vector is silently truncated and accepted, and the out-of-range
index 6 raises a plain `IndexError`. -/
theorem invalid_actions_not_rejected :
    discreteCommand (-1) 0 = Except.ok ⟨0, 0, DELTA_V, 0, 0⟩
    ∧ continuousCommand [1, 1, 1, 1] 0 =
        Except.ok ⟨DELTA_V_CONTINUOUS, DELTA_V_CONTINUOUS, DELTA_V_CONTINUOUS, 0, 0⟩
    ∧ discreteCommand 6 0 = Except.error "IndexError" := by
  refine ⟨?_, ?_, rfl⟩
  · have h : discreteCommand (-1) 0 = Except.ok ⟨0, 0, DELTA_V + 0, 0, 0⟩ := rfl
    rw [h, add_zero]
  · have h : continuousCommand [1, 1, 1, 1] 0 =
        Except.ok ⟨1 * (DELTA_V_CONTINUOUS + 0), 1 * (DELTA_V_CONTINUOUS + 0),
          1 * (DELTA_V_CONTINUOUS + 0), 0, 0⟩ := rfl
    rw [h, add_zero, one_mul]


theorem pyIndex_ok_iff (l : List ℚ) (i : Int) :
    (∃ q, pyIndex l i = Except.ok q) ↔ (-(l.length : Int) ≤ i ∧ i < (l.length : Int)) := by
  constructor
  · rintro ⟨q, hq⟩
    by_cases h : -(l.length : Int) ≤ i ∧ i < (l.length : Int)
    · exact h
    · rw [pyIndex_eq_error l i h] at hq
      cases hq
  · intro h
    exact pyIndex_isOk l i h

theorem table_index_cond (l : List ℚ) (a : Int) (hl : l.length = 6) :
    (-(l.length : Int) ≤ a ∧ a < (l.length : Int)) ↔ (-6 ≤ a ∧ a < 6) := by
  rw [hl]
  norm_num

theorem discreteCommand_ok_iff (a : Int) (n : ℚ) :
    (∃ c, discreteCommand a n = Except.ok c) ↔ (-6 ≤ a ∧ a < 6) := by
  constructor
  · rintro ⟨c, hc⟩
    by_cases h : -6 ≤ a ∧ a < 6
    · exact h
    · have e1 : pyIndex (dxTable (DELTA_V + n)) a = Except.error "IndexError" :=
        pyIndex_eq_error _ a
          (fun hc2 => h ((table_index_cond (dxTable (DELTA_V + n)) a rfl).mp hc2))
      have e2 : pyIndex (dyTable (DELTA_V + n)) a = Except.error "IndexError" :=
        pyIndex_eq_error _ a
          (fun hc2 => h ((table_index_cond (dyTable (DELTA_V + n)) a rfl).mp hc2))
      have e3 : pyIndex (dzTable (DELTA_V + n)) a = Except.error "IndexError" :=
        pyIndex_eq_error _ a
          (fun hc2 => h ((table_index_cond (dzTable (DELTA_V + n)) a rfl).mp hc2))
      simp [discreteCommand, e1, e2, e3] at hc
  · intro h
    obtain ⟨q1, h1⟩ := pyIndex_isOk (dxTable (DELTA_V + n)) a
      ((table_index_cond (dxTable (DELTA_V + n)) a rfl).mpr h)
    obtain ⟨q2, h2⟩ := pyIndex_isOk (dyTable (DELTA_V + n)) a
      ((table_index_cond (dyTable (DELTA_V + n)) a rfl).mpr h)
    obtain ⟨q3, h3⟩ := pyIndex_isOk (dzTable (DELTA_V + n)) a
      ((table_index_cond (dzTable (DELTA_V + n)) a rfl).mpr h)
    refine ⟨⟨q1, q2, q3, 0, 0⟩, ?_⟩
    simp [discreteCommand, h1, h2, h3]

theorem continuousCommand_ok_iff (v : List ℚ) (m : ℚ) :
    (∃ c, continuousCommand v m = Except.ok c) ↔ 3 ≤ v.length := by
  constructor
  · rintro ⟨c, hc⟩
    by_cases h : 3 ≤ v.length
    · exact h
    · have e3 : pyIndex v 2 = Except.error "IndexError" :=
        pyIndex_eq_error v 2 (by omega)
      cases h0 : pyIndex v 0 <;> cases h1 : pyIndex v 1 <;>
        simp [continuousCommand, h0, h1, e3] at hc
  · intro h
    have c0 : -(v.length : Int) ≤ 0 ∧ (0:Int) < (v.length : Int) := by omega
    have c1 : -(v.length : Int) ≤ 1 ∧ (1:Int) < (v.length : Int) := by omega
    have c2 : -(v.length : Int) ≤ 2 ∧ (2:Int) < (v.length : Int) := by omega
    obtain ⟨q0, h0⟩ := pyIndex_isOk v 0 c0
    obtain ⟨q1, h1⟩ := pyIndex_isOk v 1 c1
    obtain ⟨q2, h2⟩ := pyIndex_isOk v 2 c2
    refine ⟨⟨q0 * (DELTA_V_CONTINUOUS + m), q1 * (DELTA_V_CONTINUOUS + m),
      q2 * (DELTA_V_CONTINUOUS + m), 0, 0⟩, ?_⟩
    simp [continuousCommand, h0, h1, h2]

theorem continuousCommand_take (v : List ℚ) (m : ℚ) (h : 3 ≤ v.length) :
    continuousCommand v m = continuousCommand (List.take 3 v) m := by
  match v, h with
  | a :: b :: c :: rest, _ =>
    show continuousCommand (a :: b :: c :: rest) m = continuousCommand [a, b, c] m
    simp [continuousCommand, pyIndex_zero, pyIndex_one, pyIndex_two]


/-- C8 (amended): no `InvalidActionError` exists.  Discrete decoding
succeeds exactly for indices in [-6, 6) (negative indices wrap, Python
style) and otherwise raises `IndexError`; continuous decoding succeeds
exactly when the action has at least 3 entries, reading only the first 3
(silent truncation), and raises `IndexError` otherwise. -/
theorem action_decoding_behaviour (a : Int) (v : List ℚ) (n m : ℚ) :
    ((∃ c, discreteCommand a n = Except.ok c) ↔ (-6 ≤ a ∧ a < 6))
    ∧ ((∃ c, continuousCommand v m = Except.ok c) ↔ 3 ≤ v.length)
    ∧ (3 ≤ v.length → continuousCommand v m = continuousCommand (List.take 3 v) m) :=
  ⟨discreteCommand_ok_iff a n, continuousCommand_ok_iff v m, continuousCommand_take v m⟩

/-- Witness for C8: index -1 decodes successfully and a length-4 vector
decodes like its first three entries. -/
theorem action_decoding_behaviour_witness :
    (∃ c, discreteCommand (-1) 0 = Except.ok c)
    ∧ continuousCommand [1, 1, 1, 1] 0 = continuousCommand [1, 1, 1] 0 := by
  refine ⟨(action_decoding_behaviour (-1) [1, 1, 1, 1] 0 0).1.mpr (by norm_num), ?_⟩
  have h := (action_decoding_behaviour (-1) [1, 1, 1, 1] 0 0).2.2 (by norm_num)
  simpa using h

/-- Counterexample for C9: the exploratory-action normalization is not
guarded — at the all-zero draw the L2 norm (the divisor of line 236) is 0,
yet the computation still produces a command (the degenerate zero command
under exact arithmetic) that is propagated, with no resampling. -/
theorem zero_draw_division_by_zero :
    normalizationDividesByZero ⟨0, 0, 0⟩ = true
    ∧ (0:ℚ) ^ 2 = normSq ⟨0, 0, 0⟩
    ∧ exploratoryCommand ⟨0, 0, 0⟩ 0 = ⟨0, 0, 0, 0, 0⟩ := by
  refine ⟨by norm_num [normalizationDividesByZero, normSq], by norm_num [normSq], ?_⟩
  simp [exploratoryCommand, l2normalize]

/-- C9 (amended): the normalization at `reset()` has no zero-length
guard: for any draw of zero squared norm the computed norm (the divisor)
is necessarily 0 and the resulting exploratory command is still produced
(degenerating to the zero command in exact arithmetic) rather than being
resampled. -/
theorem zero_draw_unguarded (v : Vec3) (q : ℚ)
    (hv : normalizationDividesByZero v = true) (h0 : 0 ≤ q) (hq : q ^ 2 = normSq v) :
    q = 0 ∧ exploratoryCommand v q = ⟨0, 0, 0, 0, 0⟩ := by
  have hns : normSq v = 0 := by simpa [normalizationDividesByZero] using hv
  have hq0 : q = 0 := by
    have h2 : q ^ 2 = 0 := by rw [hq, hns]
    exact (pow_eq_zero_iff (by norm_num)).mp h2
  subst hq0
  refine ⟨rfl, ?_⟩
  simp [exploratoryCommand, l2normalize]

/-- Witness for C9 at the all-zero draw. -/
theorem zero_draw_unguarded_witness :
    (0:ℚ) = 0 ∧ exploratoryCommand ⟨0, 0, 0⟩ 0 = ⟨0, 0, 0, 0, 0⟩ := by
  exact zero_draw_unguarded ⟨0, 0, 0⟩ 0
    (by norm_num [normalizationDividesByZero, normSq]) (by norm_num)
    (by norm_num [normSq])

end KukaEnv
